import Mathlib

/-
Verification development for mrcptest.py, a single-session multiple-choice
quiz application.  The session state lives in a per-session dictionary
(st.session_state); the operations modelled here are the state effects of
initialize_session_state, display_question, handle_answer,
navigation_controls, progress_sidebar and restart_quiz.  Rendering, styling
and the client-side timer display are outside the model; wall-clock stamps
are abstract naturals, and the random shuffle is modelled by quantifying
over an arbitrary permutation of the question bank.
-/

/-- A question record: text, the answer options, the correct answer and an
explanation (class Question in the source). -/
structure Question where
  question_text : String
  options : List String
  correct_answer : String
  explanation : String
deriving DecidableEq

/-- The fixed question bank (the module-level `questions` list). -/
def questions : List Question :=
  [ { question_text := "What is the most common cause of hypercalcemia in hospitalized patients?"
      options := ["Primary hyperparathyroidism", "Malignancy", "Vitamin D intoxication", "Sarcoidosis"]
      correct_answer := "Malignancy"
      explanation := "Malignancy is the most common cause of hypercalcemia in hospitalized patients, particularly in those with advanced cancer. Tumors can produce parathyroid hormone-related protein (PTHrP), leading to hypercalcemia. Other causes include primary hyperparathyroidism, vitamin D intoxication, and sarcoidosis. Always consider the clinical context and investigate accordingly." },
    { question_text := "Which of the following is the first-line treatment for stable angina?"
      options := ["Beta-blockers", "Calcium channel blockers", "Nitrates", "ACE inhibitors"]
      correct_answer := "Beta-blockers"
      explanation := "Beta-blockers are the first-line treatment for stable angina. They reduce myocardial oxygen demand by lowering heart rate and contractility, thus decreasing the frequency and severity of angina episodes. Examples include metoprolol or atenolol. Consider nitrates for immediate symptom relief and calcium channel blockers as an alternative if beta-blockers are contraindicated." },
    { question_text := "What is the most common cause of Addison's disease?"
      options := ["Tuberculosis", "Autoimmune adrenalitis", "Metastatic cancer", "HIV infection"]
      correct_answer := "Autoimmune adrenalitis"
      explanation := "Autoimmune adrenalitis is the most common cause of Addison's disease in developed countries. This condition results from autoimmune destruction of the adrenal cortex, leading to deficiencies in cortisol and aldosterone. Clinical features include fatigue, weight loss, hypotension, and hyperpigmentation. Diagnosis is confirmed by elevated ACTH levels and impaired cortisol response to Synacthen." },
    { question_text := "Which of the following is a hallmark feature of rheumatoid arthritis?"
      options := ["Symmetrical polyarthritis", "Asymmetrical oligoarthritis", "Sacroiliitis", "Heberden's nodes"]
      correct_answer := "Symmetrical polyarthritis"
      explanation := "Symmetrical polyarthritis is a hallmark feature of rheumatoid arthritis (RA). It presents as inflammation and swelling in multiple small and large joints on both sides of the body. This symmetry helps distinguish RA from other forms of arthritis, such as osteoarthritis or psoriatic arthritis. Early diagnosis and treatment are crucial to prevent joint damage and improve long-term outcomes." },
    { question_text := "What is the most common cause of community-acquired pneumonia?"
      options := ["Streptococcus pneumoniae", "Haemophilus influenzae", "Mycoplasma pneumoniae", "Legionella pneumophila"]
      correct_answer := "Streptococcus pneumoniae"
      explanation := "Streptococcus pneumoniae is the most common bacterial cause of community-acquired pneumonia (CAP). It is often associated with lobar pneumonia and can progress to complications such as bacteremia or meningitis. Risk factors include age, immunocompromised states, and chronic lung disease. Treatment typically involves beta-lactam antibiotics, with adjustment based on culture and sensitivity results." },
    { question_text := "Which of the following is the most common cause of acute pancreatitis?"
      options := ["Gallstones", "Alcohol", "Hypertriglyceridemia", "ERCP"]
      correct_answer := "Gallstones"
      explanation := "Gallstones are the most common cause of acute pancreatitis, responsible for approximately 40-70% of cases. The mechanism involves obstruction of the pancreatic duct, leading to inflammation and autodigestion of the pancreas. Alcohol consumption is another significant cause, particularly in chronic drinkers. Hypertriglyceridemia and post-ERCP pancreatitis are less common but important causes to consider." },
    { question_text := "What is the most common cause of upper gastrointestinal bleeding?"
      options := ["Peptic ulcer disease", "Oesophageal varices", "Gastric cancer", "Mallory-Weiss tear"]
      correct_answer := "Peptic ulcer disease"
      explanation := "Peptic ulcer disease (PUD) is the most common cause of upper gastrointestinal bleeding (UGIB), accounting for approximately 50% of cases. The primary risk factors include Helicobacter pylori infection and the use of non-steroidal anti-inflammatory drugs (NSAIDs), both of which disrupt the gastric mucosal barrier, leading to ulcer formation and potential haemorrhage. Patients may present with haematemesis (vomiting blood) or melaena (black, tarry stools) due to digested blood. The diagnosis is confirmed via upper gastrointestinal endoscopy, which may also allow therapeutic intervention such as adrenaline injection, thermal coagulation, or clipping. Management involves proton pump inhibitors (PPIs) to reduce gastric acid secretion and promote ulcer healing, alongside eradication therapy if H. pylori is detected." },
    { question_text := "Which electrolyte abnormality is most commonly associated with adrenal insufficiency?"
      options := ["Hyperkalaemia", "Hypokalaemia", "Hypernatraemia", "Hypocalcaemia"]
      correct_answer := "Hyperkalaemia"
      explanation := "Hyperkalaemia is a key biochemical feature of adrenal insufficiency, resulting from aldosterone deficiency. In primary adrenal insufficiency (Addison’s disease), destruction of the adrenal cortex leads to reduced aldosterone production, impairing renal potassium excretion. This results in hyperkalaemia, hyponatraemia, and hypotension due to volume depletion. Patients with Addison’s disease may present with fatigue, weight loss, postural dizziness, and characteristic hyperpigmentation due to increased adrenocorticotropic hormone (ACTH) production. The diagnosis is confirmed with a short synacthen test, and treatment involves lifelong corticosteroid and mineralocorticoid replacement, typically with hydrocortisone and fludrocortisone." },
    { question_text := "Which of the following is the most common cause of spontaneous bacterial peritonitis (SBP)?"
      options := ["Escherichia coli", "Klebsiella pneumoniae", "Streptococcus pneumoniae", "Pseudomonas aeruginosa"]
      correct_answer := "Escherichia coli"
      explanation := "Escherichia coli is the most common causative organism of spontaneous bacterial peritonitis (SBP), a life-threatening infection in patients with cirrhosis and ascitic fluid accumulation. SBP occurs due to bacterial translocation from the gut into the peritoneal cavity, facilitated by impaired immune defences in cirrhotic patients. The condition typically presents with fever, abdominal pain, worsening ascites, and encephalopathy. The diagnosis is confirmed if ascitic fluid analysis shows a neutrophil count ≥250 cells/µL. Empirical treatment involves intravenous third-generation cephalosporins, such as cefotaxime or ceftriaxone, with albumin infusion to reduce the risk of hepatorenal syndrome." },
    { question_text := "What is the first-line treatment for anaphylaxis?"
      options := ["Intramuscular adrenaline", "Intravenous corticosteroids", "Intravenous antihistamines", "Nebulised salbutamol"]
      correct_answer := "Intramuscular adrenaline"
      explanation := "Intramuscular adrenaline (500 micrograms IM, repeated every 5 minutes as necessary) is the first-line treatment for anaphylaxis, a severe, life-threatening allergic reaction. Adrenaline acts on alpha and beta-adrenergic receptors to counteract hypotension, bronchospasm, and tissue oedema. Patients typically present with airway compromise, wheezing, hypotension, urticaria, and angioedema. Adjunctive treatments include oxygen, intravenous fluids, antihistamines (chlorphenamine), and corticosteroids (hydrocortisone), but these should not delay adrenaline administration. Patients should be observed for at least 6 hours due to the risk of a biphasic reaction and should be discharged with an adrenaline auto-injector and follow-up with an allergy specialist." },
    { question_text := "Which of the following findings is most characteristic of cardiac tamponade?"
      options := ["Pulsus paradoxus", "Kussmaul’s sign", "Corrigan’s pulse", "Quincke’s sign"]
      correct_answer := "Pulsus paradoxus"
      explanation := "Pulsus paradoxus, a drop in systolic blood pressure of more than 10 mmHg during inspiration, is a hallmark feature of cardiac tamponade. This condition occurs due to excessive pericardial fluid accumulation, which restricts ventricular filling, leading to reduced cardiac output. Patients present with Beck’s triad: hypotension, muffled heart sounds, and raised jugular venous pressure (JVP). Additional signs include tachycardia and a narrow pulse pressure. The diagnosis is confirmed with echocardiography, which typically shows pericardial effusion and diastolic collapse of the right atrium and ventricle. Emergency pericardiocentesis is the definitive treatment." },
    { question_text := "Which is the most common type of thyroid cancer?"
      options := ["Papillary carcinoma", "Follicular carcinoma", "Medullary carcinoma", "Anaplastic carcinoma"]
      correct_answer := "Papillary carcinoma"
      explanation := "Papillary carcinoma is the most common type of thyroid cancer, accounting for approximately 80% of cases. It often presents as a painless thyroid nodule and is more common in young adults and women. The condition is strongly associated with previous radiation exposure and genetic mutations, including RET/PTC rearrangements and BRAF mutations. It spreads primarily via lymphatics, leading to cervical lymph node metastases, but has an excellent prognosis. Diagnosis is confirmed by fine-needle aspiration cytology (FNAC) following an ultrasound scan. Treatment typically involves total thyroidectomy with or without radioactive iodine therapy, depending on the risk stratification." } ]

/-- The session state once all keys are present: the values behind the keys of
required_keys in initialize_session_state.  current_q is a Python int (it is
incremented and decremented before being re-clamped), so it is modelled as an
integer; start_time is an abstract stamp. -/
structure SessionState where
  current_q : Int
  score : Nat
  answers : List (Option Bool)
  selected_options : List (Option String)
  start_time : Nat
  submitted : List Bool
  shuffled_questions : List Question
deriving DecidableEq

/-- The raw session dictionary before initialization: each key of
required_keys may still be absent.  The key shuffled_questions holding the
value None is identified with the absent key, since initialize_session_state
treats both the same way (it shuffles exactly when the stored value is None). -/
structure SessionDict where
  current_q : Option Int
  score : Option Nat
  answers : Option (List (Option Bool))
  selected_options : Option (List (Option String))
  start_time : Option Nat
  submitted : Option (List Bool)
  shuffled_questions : Option (List Question)
deriving DecidableEq

/-- initialize_session_state: every absent key is set to its default from
required_keys, then the questions are shuffled only if no shuffle is stored
yet.  `sh` stands for the result of random.shuffle on a copy of `questions`,
`now` for datetime.now(). -/
def initialize_session_state (sh : List Question) (now : Nat) (d : SessionDict) :
    SessionDict :=
  let d1 : SessionDict :=
    { current_q := some (d.current_q.getD 0)
      score := some (d.score.getD 0)
      answers := some (d.answers.getD (List.replicate questions.length none))
      selected_options := some (d.selected_options.getD (List.replicate questions.length none))
      start_time := some (d.start_time.getD now)
      submitted := some (d.submitted.getD (List.replicate questions.length false))
      shuffled_questions := d.shuffled_questions }
  match d1.shuffled_questions with
  | some _ => d1
  | none => { d1 with shuffled_questions := some sh }

/-- The full session state produced by initialize_session_state on a fresh
session: all defaults from required_keys, plus the session's shuffle. -/
def init_state (sh : List Question) (now : Nat) : SessionState :=
  { current_q := 0
    score := 0
    answers := List.replicate questions.length none
    selected_options := List.replicate questions.length none
    start_time := now
    submitted := List.replicate questions.length false
    shuffled_questions := sh }

/-- The clamp at the top of display_question:
current_q := max(0, min(current_q, len(shuffled_questions) - 1)). -/
def display_clamp (s : SessionState) : SessionState :=
  { s with current_q := max 0 (min s.current_q ((s.shuffled_questions.length : Int) - 1)) }

/-- A placeholder question, standing for the out-of-range lookup that the
clamp makes unreachable. -/
def emptyQuestion : Question :=
  { question_text := "", options := [], correct_answer := "", explanation := "" }

/-- question = st.session_state.shuffled_questions[st.session_state.current_q]
in display_question. -/
def currentQuestion (s : SessionState) : Question :=
  s.shuffled_questions.getD s.current_q.toNat emptyQuestion

/-- Recording the cleaned radio choice into selected_options at the current
position (display_question). -/
def select_option (s : SessionState) (opt : String) : SessionState :=
  { s with selected_options := s.selected_options.set s.current_q.toNat (some opt) }

/-- Python truthiness test `not selected` on an optional string: None and the
empty string are falsy. -/
def pyFalsy : Option String → Bool
  | none => true
  | some t => t == ""

/-- handle_answer: validate the stored selection and update score, answers and
submitted.  The returned Bool records whether the warning "Please select an
answer before submitting!" fired, which is the early-return branch. -/
def handle_answer (s : SessionState) (question : Question) : SessionState × Bool :=
  let selected := s.selected_options.getD s.current_q.toNat none
  if pyFalsy selected then (s, true)
  else
    let is_correct : Bool := selected.getD "" == question.correct_answer
    let s1 : SessionState :=
      if s.answers.getD s.current_q.toNat none = none then
        { s with
          score := if is_correct then s.score + 1 else s.score
          answers := s.answers.set s.current_q.toNat (some is_correct) }
      else s
    ({ s1 with submitted := s1.submitted.set s1.current_q.toNat true }, false)

/-- The Previous button of navigation_controls: disabled exactly when
current_q == 0, otherwise current_q -= 1. -/
def nav_previous (s : SessionState) : SessionState :=
  if s.current_q = 0 then s else { s with current_q := s.current_q - 1 }

/-- The Next button of navigation_controls: disabled exactly when the current
position is not submitted, otherwise current_q += 1. -/
def nav_next (s : SessionState) : SessionState :=
  if s.submitted.getD s.current_q.toNat false then
    { s with current_q := s.current_q + 1 }
  else s

/-- A question-navigator button Q(i+1) in progress_sidebar: jump to position i
after the in-range check 0 <= i < len(shuffled_questions). -/
def nav_jump (s : SessionState) (i : Nat) : SessionState :=
  if i < s.shuffled_questions.length then { s with current_q := (i : Int) } else s

/-- restart_quiz: a fresh shuffle and a wholesale reset of every key.  `sh`
stands for the newly shuffled copy of `questions`, `now` for datetime.now(). -/
def restart_quiz (sh : List Question) (now : Nat) (_s : SessionState) : SessionState :=
  { shuffled_questions := sh
    current_q := 0
    score := 0
    answers := List.replicate questions.length none
    selected_options := List.replicate questions.length none
    start_time := now
    submitted := List.replicate questions.length false }

/-- attempted = sum(st.session_state.submitted) in progress_sidebar. -/
def attempted (s : SessionState) : Nat :=
  s.submitted.count true

/-- The accuracy value of progress_sidebar:
(score / attempted * 100) if attempted > 0 else 0, in exact arithmetic. -/
def accuracy (s : SessionState) : ℚ :=
  if attempted s > 0 then (s.score : ℚ) / (attempted s : ℚ) * 100 else 0

/-- The displayed accuracy metric of progress_sidebar: the accuracy value when
attempted > 0, and none (rendered as the text N/A) otherwise. -/
def accuracy_metric (s : SessionState) : Option ℚ :=
  if attempted s > 0 then some (accuracy s) else none

/-- progress = attempted / total_questions in progress_sidebar. -/
def progressFraction (s : SessionState) : ℚ :=
  (attempted s : ℚ) / (s.shuffled_questions.length : ℚ)

/-- The lettered option label of display_question: chr(65 + i) + ". " + opt. -/
def option_label (i : Nat) (opt : String) : String :=
  String.singleton (Char.ofNat (65 + i)) ++ ". " ++ opt

/-- Everything after the first occurrence of sep, or none when sep does not
occur: part [1] of a Python split on sep with maxsplit 1. -/
def split_after (sep : List Char) : List Char → Option (List Char)
  | [] => none
  | c :: cs =>
      if sep.isPrefixOf (c :: cs) then some (List.drop sep.length (c :: cs))
      else split_after sep cs

/-- clean_answer = selected.split(". ", 1)[1] in display_question. -/
def clean_answer (selected : String) : Option String :=
  (split_after ('.' :: ' ' :: []) selected.toList).map fun l => String.mk l

/-- The number of positions whose recorded correctness value is True. -/
def countCorrect (l : List (Option Bool)) : Nat :=
  l.count (some true)

/-- One user interaction together with the rerun it triggers: every mutating
control calls st.rerun(), and the following run of the script re-clamps
current_q at the top of display_question before anything reads it.  The radio
and the Submit button only exist while the current position is unsubmitted,
the radio only offers the current question's options, and a restart draws a
fresh permutation of the bank. -/
inductive Step : SessionState → SessionState → Prop
  | select (s : SessionState) (opt : String)
      (hsub : s.submitted.getD s.current_q.toNat false = false)
      (hopt : opt ∈ (currentQuestion s).options) :
      Step s (display_clamp (select_option s opt))
  | submit (s : SessionState)
      (hsub : s.submitted.getD s.current_q.toNat false = false) :
      Step s (display_clamp (handle_answer s (currentQuestion s)).1)
  | next (s : SessionState) :
      Step s (display_clamp (nav_next s))
  | previous (s : SessionState) :
      Step s (display_clamp (nav_previous s))
  | jump (s : SessionState) (i : Nat) :
      Step s (display_clamp (nav_jump s i))
  | restart (s : SessionState) (sh : List Question) (now : Nat)
      (hperm : sh.Perm questions) :
      Step s (display_clamp (restart_quiz sh now s))
  | rerender (s : SessionState) :
      Step s (display_clamp s)

/-- The states a session can be in: the first run of the script initializes
the state with some shuffle of the bank, and every later state follows by a
user interaction. -/
inductive Reachable : SessionState → Prop
  | init (sh : List Question) (now : Nat) (hperm : sh.Perm questions) :
      Reachable (init_state sh now)
  | step (s t : SessionState) (hs : Reachable s) (hst : Step s t) : Reachable t

example : questions.length = 12 := by decide
example : (init_state questions 0).score = 0 := rfl
example : clean_answer (option_label 0 "Malignancy") = some "Malignancy" := by decide
example : clean_answer (option_label 1 "a. b") = some "a. b" := by decide

/-- Lookup under the bound turns a default-none read into a some. -/
lemma getElem?_of_getD_none (l : List (Option Bool)) (i : Nat) (hi : i < l.length)
    (h : l.getD i none = none) : l[i]? = some none := by
  rw [List.getD_eq_getElem?_getD] at h
  cases hx : l[i]? with
  | none => exact absurd (List.getElem?_eq_none_iff.mp hx) (Nat.not_le.mpr hi)
  | some v =>
      rw [hx] at h
      simp only [Option.getD_some] at h
      rw [h]

/-- Setting a fresh correctness value grows the correct count by one exactly
when the value is true. -/
lemma countCorrect_set (l : List (Option Bool)) (i : Nat) (b : Bool)
    (h : l[i]? = some none) :
    countCorrect (l.set i (some b)) = countCorrect l + (if b then 1 else 0) := by
  induction l generalizing i with
  | nil => simp at h
  | cons a as ih =>
    cases i with
    | zero =>
      simp only [List.getElem?_cons_zero, Option.some.injEq] at h
      subst h
      cases b <;> simp [countCorrect, List.count_cons]
    | succ n =>
      simp only [List.getElem?_cons_succ] at h
      simp only [List.set_cons_succ]
      simp only [countCorrect, List.count_cons] at ih ⊢
      rw [ih n h]
      omega

/-- The bookkeeping invariants that do not mention the current position. -/
structure CoreWF (s : SessionState) : Prop where
  answers_len : s.answers.length = questions.length
  selected_len : s.selected_options.length = questions.length
  submitted_len : s.submitted.length = questions.length
  shuffled_perm : s.shuffled_questions.Perm questions
  score_count : s.score = countCorrect s.answers
  submitted_answered : ∀ i : Nat, i < questions.length →
      s.submitted.getD i false = true → s.answers.getD i none ≠ none

/-- The full invariant of reachable session states. -/
structure WF (s : SessionState) extends CoreWF s : Prop where
  cq_lb : 0 ≤ s.current_q
  cq_ub : s.current_q < (questions.length : Int)

/-- CoreWF ignores the current position. -/
lemma CoreWF.with_cq {s : SessionState} (h : CoreWF s) (x : Int) :
    CoreWF { s with current_q := x } :=
  ⟨h.answers_len, h.selected_len, h.submitted_len, h.shuffled_perm,
   h.score_count, h.submitted_answered⟩

/-- The clamp of display_question restores the position bounds from the core
invariant alone. -/
lemma wf_clamp {s : SessionState} (h : CoreWF s) : WF (display_clamp s) := by
  have hlen : s.shuffled_questions.length = questions.length := h.shuffled_perm.length_eq
  have hq : 0 < questions.length := by decide
  refine ⟨h.with_cq _, ?_, ?_⟩
  · simp only [display_clamp]
    omega
  · simp only [display_clamp, hlen]
    omega

/-- Recording a tentative choice touches only selected_options. -/
lemma core_select_option {s : SessionState} (opt : String) (h : CoreWF s) :
    CoreWF (select_option s opt) := by
  refine ⟨h.answers_len, ?_, h.submitted_len, h.shuffled_perm, h.score_count,
    h.submitted_answered⟩
  simp [select_option, h.selected_len]

/-- handle_answer preserves the core invariant. -/
lemma core_handle_answer {s : SessionState} (q : Question) (h : WF s) :
    CoreWF (handle_answer s q).1 := by
  have h1 := h.cq_lb
  have h2 := h.cq_ub
  have hidx : s.current_q.toNat < questions.length := by omega
  have hidxa : s.current_q.toNat < s.answers.length := by
    rw [h.answers_len]; exact hidx
  have hidxs : s.current_q.toNat < s.submitted.length := by
    rw [h.submitted_len]; exact hidx
  simp only [handle_answer]
  split
  · exact h.toCoreWF
  · split
    next hnone =>
      have hset := countCorrect_set s.answers s.current_q.toNat
        ((s.selected_options.getD s.current_q.toNat none).getD "" == q.correct_answer)
        (getElem?_of_getD_none s.answers s.current_q.toNat hidxa hnone)
      refine ⟨?_, h.selected_len, ?_, h.shuffled_perm, ?_, ?_⟩
      · simpa using h.answers_len
      · simpa using h.submitted_len
      · simp only [hset, ← h.score_count]
        cases (s.selected_options.getD s.current_q.toNat none).getD "" == q.correct_answer <;>
          simp
      · intro j hj hsubj
        by_cases hji : j = s.current_q.toNat
        · subst hji
          rw [List.getD_eq_getElem?_getD, List.getElem?_set_self hidxa]
          simp
        · rw [List.getD_eq_getElem?_getD,
            List.getElem?_set_ne (fun he => hji he.symm)] at hsubj
          rw [List.getD_eq_getElem?_getD, List.getElem?_set_ne (fun he => hji he.symm)]
          rw [← List.getD_eq_getElem?_getD] at hsubj ⊢
          exact h.submitted_answered j hj hsubj
    next hnone =>
      refine ⟨h.answers_len, h.selected_len, ?_, h.shuffled_perm, h.score_count, ?_⟩
      · simpa using h.submitted_len
      · intro j hj hsubj
        by_cases hji : j = s.current_q.toNat
        · subst hji; exact hnone
        · rw [List.getD_eq_getElem?_getD,
            List.getElem?_set_ne (fun he => hji he.symm),
            ← List.getD_eq_getElem?_getD] at hsubj
          exact h.submitted_answered j hj hsubj

/-- The Next button only moves the position. -/
lemma core_nav_next {s : SessionState} (h : CoreWF s) : CoreWF (nav_next s) := by
  rw [nav_next]
  split
  · exact h.with_cq _
  · exact h

/-- The Previous button only moves the position. -/
lemma core_nav_previous {s : SessionState} (h : CoreWF s) : CoreWF (nav_previous s) := by
  rw [nav_previous]
  split
  · exact h
  · exact h.with_cq _

/-- A navigator jump only moves the position. -/
lemma core_nav_jump {s : SessionState} (i : Nat) (h : CoreWF s) : CoreWF (nav_jump s i) := by
  rw [nav_jump]
  split
  · exact h.with_cq _
  · exact h

/-- restart_quiz builds exactly the state a fresh initialization builds. -/
lemma restart_quiz_eq_init (sh : List Question) (now : Nat) (s : SessionState) :
    restart_quiz sh now s = init_state sh now := rfl

/-- A freshly initialized session satisfies the invariant. -/
lemma wf_init (sh : List Question) (now : Nat) (hperm : sh.Perm questions) :
    WF (init_state sh now) := by
  refine ⟨⟨?_, ?_, ?_, hperm, ?_, ?_⟩, ?_, ?_⟩
  · simp [init_state]
  · simp [init_state]
  · simp [init_state]
  · simp [init_state, countCorrect, List.count_replicate]
  · intro j hj hfalse
    simp only [init_state] at hfalse
    rw [List.getD_eq_getElem?_getD, List.getElem?_replicate] at hfalse
    simp [hj] at hfalse
  · simp [init_state]
  · simp only [init_state]
    decide

/-- Every reachable session state satisfies the invariant. -/
theorem wf_reachable {s : SessionState} (h : Reachable s) : WF s := by
  induction h with
  | init sh now hperm => exact wf_init sh now hperm
  | step s t hs hst ih =>
      cases hst with
      | select opt hsub hopt => exact wf_clamp (core_select_option opt ih.toCoreWF)
      | submit hsub => exact wf_clamp (core_handle_answer _ ih)
      | next => exact wf_clamp (core_nav_next ih.toCoreWF)
      | previous => exact wf_clamp (core_nav_previous ih.toCoreWF)
      | jump i => exact wf_clamp (core_nav_jump i ih.toCoreWF)
      | restart sh now hperm =>
          exact wf_clamp (restart_quiz_eq_init sh now s ▸ (wf_init sh now hperm).toCoreWF)
      | rerender => exact wf_clamp ih.toCoreWF

/-- On a state inside the bounds the display clamp is the identity. -/
lemma display_clamp_eq_of_wf {s : SessionState} (h : WF s) : display_clamp s = s := by
  have hlen : s.shuffled_questions.length = questions.length := h.shuffled_perm.length_eq
  have h1 := h.cq_lb
  have h2 := h.cq_ub
  have hmax : max 0 (min s.current_q ((s.shuffled_questions.length : Int) - 1)) =
      s.current_q := by omega
  rw [display_clamp, hmax]

/-- A demonstration session: the identity shuffle, started at stamp 0. -/
def demo0 : SessionState := init_state questions 0

/-- demo0 after choosing the option Malignancy for the displayed question. -/
def demo1 : SessionState := display_clamp (select_option demo0 "Malignancy")

/-- demo1 after submitting: the first position is answered correctly. -/
def demo2 : SessionState := display_clamp (handle_answer demo1 (currentQuestion demo1)).1

lemma demo0_reachable : Reachable demo0 :=
  Reachable.init questions 0 (List.Perm.refl _)

lemma demo1_reachable : Reachable demo1 :=
  Reachable.step demo0 demo1 demo0_reachable
    (Step.select demo0 "Malignancy" (by decide) (by decide))

lemma demo2_reachable : Reachable demo2 :=
  Reachable.step demo1 demo2 demo1_reachable (Step.submit demo1 (by decide))

/-- C1: in every reachable session state the score equals the number of
positions whose recorded correctness value is True, and every step of the
session preserves this equality. -/
theorem score_eq_countCorrect {s : SessionState} (h : Reachable s) :
    s.score = countCorrect s.answers ∧
    ∀ t, Step s t → t.score = countCorrect t.answers :=
  ⟨(wf_reachable h).score_count,
   fun t hst => (wf_reachable (Reachable.step s t h hst)).score_count⟩

/-- Witness for C1 at a concrete reachable state with one correct answer. -/
theorem score_eq_countCorrect_witness :
    Reachable demo2 ∧ demo2.score = 1 ∧
    (demo2.score = countCorrect demo2.answers ∧
      ∀ t, Step demo2 t → t.score = countCorrect t.answers) :=
  ⟨demo2_reachable, by decide, score_eq_countCorrect demo2_reachable⟩

/-- C2: once the current position has been submitted, running handle_answer on
it again changes neither the score nor any recorded correctness value. -/
theorem resubmit_never_double_counts {s : SessionState} (h : Reachable s)
    (hsub : s.submitted.getD s.current_q.toNat false = true) :
    (handle_answer s (currentQuestion s)).1.score = s.score ∧
    (handle_answer s (currentQuestion s)).1.answers = s.answers := by
  have hw := wf_reachable h
  have h1 := hw.cq_lb
  have h2 := hw.cq_ub
  have hidx : s.current_q.toNat < questions.length := by omega
  have hans : s.answers.getD s.current_q.toNat none ≠ none :=
    hw.submitted_answered _ hidx hsub
  simp only [handle_answer]
  rw [if_neg hans]
  split
  · exact ⟨rfl, rfl⟩
  · exact ⟨rfl, rfl⟩

/-- Witness for C2 at a concrete state whose current position is submitted. -/
theorem resubmit_never_double_counts_witness :
    demo2.submitted.getD demo2.current_q.toNat false = true ∧
    (handle_answer demo2 (currentQuestion demo2)).1.score = demo2.score ∧
    (handle_answer demo2 (currentQuestion demo2)).1.answers = demo2.answers :=
  ⟨by decide, resubmit_never_double_counts demo2_reachable (by decide)⟩

/-- C3: handle_answer with no stored selection for the current position fires
the warning and hands back the session state unchanged. -/
theorem submit_without_selection_is_noop (s : SessionState) (q : Question)
    (hsel : s.selected_options.getD s.current_q.toNat none = none) :
    handle_answer s q = (s, true) := by
  simp only [handle_answer]
  rw [hsel]
  simp [pyFalsy]

/-- Witness for C3 on the freshly initialized session. -/
theorem submit_without_selection_is_noop_witness :
    demo0.selected_options.getD demo0.current_q.toNat none = none ∧
    handle_answer demo0 (currentQuestion demo0) = (demo0, true) :=
  ⟨by decide, submit_without_selection_is_noop demo0 (currentQuestion demo0) (by decide)⟩

/-- C4: restart_quiz, from any state and with any fresh shuffle of the bank,
zeroes the score, clears submitted, correctness and selections, moves the
position to 0, resets the start stamp and stores a permutation of the bank. -/
theorem restart_resets (s : SessionState) (sh : List Question) (now : Nat)
    (hperm : sh.Perm questions) :
    (restart_quiz sh now s).score = 0 ∧
    (restart_quiz sh now s).submitted = List.replicate questions.length false ∧
    (restart_quiz sh now s).answers = List.replicate questions.length none ∧
    (restart_quiz sh now s).selected_options = List.replicate questions.length none ∧
    (restart_quiz sh now s).current_q = 0 ∧
    (restart_quiz sh now s).start_time = now ∧
    (restart_quiz sh now s).shuffled_questions.Perm questions :=
  ⟨rfl, rfl, rfl, rfl, rfl, rfl, hperm⟩

/-- Witness for C4: restarting the mid-session state demo2. -/
theorem restart_resets_witness :
    questions.Perm questions ∧
    ((restart_quiz questions 5 demo2).score = 0 ∧
     (restart_quiz questions 5 demo2).submitted = List.replicate questions.length false ∧
     (restart_quiz questions 5 demo2).answers = List.replicate questions.length none ∧
     (restart_quiz questions 5 demo2).selected_options = List.replicate questions.length none ∧
     (restart_quiz questions 5 demo2).current_q = 0 ∧
     (restart_quiz questions 5 demo2).start_time = 5 ∧
     (restart_quiz questions 5 demo2).shuffled_questions.Perm questions) :=
  ⟨List.Perm.refl _, restart_resets demo2 questions 5 (List.Perm.refl _)⟩

/-- C5: the shuffled order of every reachable state is a permutation of the
fixed bank, so every question occurs exactly as often as in the bank. -/
theorem shuffled_questions_perm_bank {s : SessionState} (h : Reachable s) :
    s.shuffled_questions.Perm questions ∧
    ∀ q : Question, s.shuffled_questions.count q = questions.count q :=
  ⟨(wf_reachable h).shuffled_perm,
   fun q => (wf_reachable h).shuffled_perm.count_eq q⟩

/-- Witness for C5 on a session reached by three interactions. -/
theorem shuffled_questions_perm_bank_witness :
    Reachable demo2 ∧
    (demo2.shuffled_questions.Perm questions ∧
     ∀ q : Question, demo2.shuffled_questions.count q = questions.count q) :=
  ⟨demo2_reachable, shuffled_questions_perm_bank demo2_reachable⟩

/-- C6: initialize_session_state on an already-initialized session (every
required key present and a shuffle stored) changes no key, so the shuffle is
computed only once per session even across page re-renders. -/
theorem initialize_idempotent (sh : List Question) (now : Nat) (d : SessionDict)
    (hc : d.current_q.isSome) (hs : d.score.isSome) (ha : d.answers.isSome)
    (hso : d.selected_options.isSome) (ht : d.start_time.isSome)
    (hsb : d.submitted.isSome) (hsh : d.shuffled_questions.isSome) :
    initialize_session_state sh now d = d := by
  obtain ⟨c1, h1⟩ := Option.isSome_iff_exists.mp hc
  obtain ⟨c2, h2⟩ := Option.isSome_iff_exists.mp hs
  obtain ⟨c3, h3⟩ := Option.isSome_iff_exists.mp ha
  obtain ⟨c4, h4⟩ := Option.isSome_iff_exists.mp hso
  obtain ⟨c5, h5⟩ := Option.isSome_iff_exists.mp ht
  obtain ⟨c6, h6⟩ := Option.isSome_iff_exists.mp hsb
  obtain ⟨c7, h7⟩ := Option.isSome_iff_exists.mp hsh
  cases d
  simp only at h1 h2 h3 h4 h5 h6 h7
  subst h1 h2 h3 h4 h5 h6 h7
  simp [initialize_session_state]

/-- A fully initialized session dictionary, for the C6 witness. -/
def demo_dict : SessionDict :=
  { current_q := some 0
    score := some 0
    answers := some (List.replicate questions.length none)
    selected_options := some (List.replicate questions.length none)
    start_time := some 0
    submitted := some (List.replicate questions.length false)
    shuffled_questions := some questions }

/-- Witness for C6 on a concrete fully-initialized dictionary. -/
theorem initialize_idempotent_witness :
    demo_dict.current_q.isSome = true ∧ demo_dict.score.isSome = true ∧
    demo_dict.answers.isSome = true ∧ demo_dict.selected_options.isSome = true ∧
    demo_dict.start_time.isSome = true ∧ demo_dict.submitted.isSome = true ∧
    demo_dict.shuffled_questions.isSome = true ∧
    initialize_session_state questions 7 demo_dict = demo_dict :=
  ⟨rfl, rfl, rfl, rfl, rfl, rfl, rfl,
   initialize_idempotent questions 7 demo_dict rfl rfl rfl rfl rfl rfl rfl⟩

/-- C7: while the current position is unsubmitted the Next control is
disabled, so the advance interaction leaves the current position where it is. -/
theorem advance_gated_on_submission {s : SessionState} (h : Reachable s)
    (hsub : s.submitted.getD s.current_q.toNat false = false) :
    (display_clamp (nav_next s)).current_q = s.current_q := by
  rw [nav_next, if_neg (by rw [hsub]; simp)]
  rw [display_clamp_eq_of_wf (wf_reachable h)]

/-- Witness for C7 on the freshly initialized session, where nothing is
submitted. -/
theorem advance_gated_on_submission_witness :
    demo0.submitted.getD demo0.current_q.toNat false = false ∧
    (display_clamp (nav_next demo0)).current_q = demo0.current_q :=
  ⟨by decide, advance_gated_on_submission demo0_reachable (by decide)⟩

/-- C8: in every reachable state the current index is in range; an enabled
Next interaction is an increment clamped to the last index, and an enabled
Previous interaction is a decrement clamped to 0. -/
theorem current_index_clamped {s : SessionState} (h : Reachable s) :
    (0 ≤ s.current_q ∧ s.current_q < (s.shuffled_questions.length : Int)) ∧
    (s.submitted.getD s.current_q.toNat false = true →
      (display_clamp (nav_next s)).current_q =
        min (s.current_q + 1) ((s.shuffled_questions.length : Int) - 1)) ∧
    (s.current_q ≠ 0 →
      (display_clamp (nav_previous s)).current_q = max (s.current_q - 1) 0) := by
  have hw := wf_reachable h
  have hlen : s.shuffled_questions.length = questions.length := hw.shuffled_perm.length_eq
  have hq : 0 < questions.length := by decide
  have h1 := hw.cq_lb
  have h2 := hw.cq_ub
  refine ⟨⟨h1, by omega⟩, ?_, ?_⟩
  · intro hsub
    rw [nav_next, if_pos hsub]
    simp only [display_clamp]
    omega
  · intro hne
    rw [nav_previous, if_neg hne]
    simp only [display_clamp]
    omega

/-- Witness for C8 at a state whose current position is submitted. -/
theorem current_index_clamped_witness :
    (0 ≤ demo2.current_q ∧ demo2.current_q < (demo2.shuffled_questions.length : Int)) ∧
    (demo2.submitted.getD demo2.current_q.toNat false = true →
      (display_clamp (nav_next demo2)).current_q =
        min (demo2.current_q + 1) ((demo2.shuffled_questions.length : Int) - 1)) ∧
    (demo2.current_q ≠ 0 →
      (display_clamp (nav_previous demo2)).current_q = max (demo2.current_q - 1) 0) :=
  current_index_clamped demo2_reachable

/-- C9: the accuracy metric reads N/A (none) exactly when no position is
submitted, and otherwise is score over attempted, times 100; it is a pure
read of the session state. -/
theorem accuracy_metric_correct (s : SessionState) :
    (attempted s = 0 → accuracy_metric s = none) ∧
    (0 < attempted s →
      accuracy_metric s = some ((s.score : ℚ) / (attempted s : ℚ) * 100)) := by
  constructor
  · intro h0
    simp [accuracy_metric, h0]
  · intro hpos
    simp [accuracy_metric, accuracy, gt_iff_lt, hpos]

/-- Witness for C9 at a state with one submission, and at a fresh one with
none. -/
theorem accuracy_metric_correct_witness :
    ((attempted demo2 = 0 → accuracy_metric demo2 = none) ∧
     (0 < attempted demo2 →
       accuracy_metric demo2 = some ((demo2.score : ℚ) / (attempted demo2 : ℚ) * 100))) ∧
    attempted demo2 = 1 ∧ attempted demo0 = 0 ∧ accuracy_metric demo0 = none :=
  ⟨accuracy_metric_correct demo2, by decide, by decide,
   (accuracy_metric_correct demo0).1 (by decide)⟩

/-- The label letter chr(65 + i) is never the dot of the separator. -/
lemma letter_ne_dot (i : Nat) (hi : i < 26) : Char.ofNat (65 + i) ≠ '.' := by
  interval_cases i <;> decide

/-- The character list behind a lettered label. -/
lemma option_label_toList (i : Nat) (opt : String) :
    (option_label i opt).toList = Char.ofNat (65 + i) :: '.' :: ' ' :: opt.toList := by
  simp [option_label, String.toList, String.singleton]

/-- C10: splitting a lettered label on its first ". " recovers the option text
verbatim, even when the option itself contains ". ". -/
theorem option_label_roundtrip (i : Nat) (opt : String) (hi : i < 26) :
    clean_answer (option_label i opt) = some opt := by
  have hc : ('.' == Char.ofNat (65 + i)) = false :=
    beq_eq_false_iff_ne.mpr (Ne.symm (letter_ne_dot i hi))
  rw [clean_answer, option_label_toList]
  rw [split_after, if_neg (by simp [List.isPrefixOf, hc])]
  rw [split_after, if_pos (by simp [List.isPrefixOf])]
  simp [String.toList]

/-- Witness for C10 with an option text that itself contains the separator. -/
theorem option_label_roundtrip_witness :
    (0 : Nat) < 26 ∧
    clean_answer (option_label 0 "Vitamin D. intoxication") = some "Vitamin D. intoxication" :=
  ⟨by decide, option_label_roundtrip 0 "Vitamin D. intoxication" (by decide)⟩
